import Mathlib

/-!
Verification of the platform-capability client and analysis-workflow
orchestrator of the resume-analysis application.

The first half embeds the zustand store of `src/app/lib/puter.ts`:
the store state record, the internal `setError` helper, the session
operations (`checkAuthStatus`, `signIn`, `signOut`, `refreshUser`),
`clearError`, the availability-gate effects of `init`, and the
capability-adapter guard.  Platform calls are modelled by oracle
parameters describing the outcome of each awaited promise; each store
operation is embedded as a pure function from the pre-state (plus its
oracle) to the post-state, run to completion — the cooperative,
single-threaded execution model of the source.

The second half embeds `handleAnalyze` of `src/app/routes/upload.tsx`
as a pure function from an environment of stage outcomes to the trace
of platform effects (status texts, upload / AI / key-value calls) and
the run outcome (completed, aborted early, or terminated by an
uncaught exception).
-/

/-- Opaque platform user record (`PuterUser`); only its identity matters here. -/
structure PuterUser where
  username : String
deriving DecidableEq, Repr

/-- The value of the `getUser` closure stored in the `auth` slice.
`live` is the initial `() => get().auth.user`; `const u` is the
snapshot closure `() => user` (or `() => null`) installed by
`checkAuthStatus`, `refreshUser` and `signOut`. -/
inductive GetUserFn where
  | live : GetUserFn
  | const (u : Option PuterUser) : GetUserFn
deriving DecidableEq, Repr

/-- The mutable fields of the `PuterStore` state (`isLoading`, `error`,
`puterReady`, and the `auth` slice's `user`, `isAuthenticated` and
`getUser` closure).  The function-valued fields `signIn`, `signOut`,
`refreshUser`, `checkAuthStatus` never change and are not state. -/
structure StoreState where
  isLoading : Bool
  error : Option String
  puterReady : Bool
  user : Option PuterUser
  isAuthenticated : Bool
  getUserFn : GetUserFn
deriving DecidableEq, Repr

/-- The initial store state returned by the `create` callback
(lines 428-440 of `puter.ts`). -/
def initialState : StoreState :=
  { isLoading := true
    error := none
    puterReady := false
    user := none
    isAuthenticated := false
    getUserFn := GetUserFn.live }

/-- `setError`: sets `error`, clears `isLoading`, and rebuilds the
`auth` slice with `user: null`, `isAuthenticated: false`, while keeping
the previous `getUser` closure (`getUser: get().auth.getUser`). -/
def setErrorStore (msg : String) (s : StoreState) : StoreState :=
  { s with
    error := some msg
    isLoading := false
    user := none
    isAuthenticated := false }

/-- What the exposed `auth.getUser()` accessor returns in state `s`. -/
def getUserView (s : StoreState) : Option PuterUser :=
  match s.getUserFn with
  | GetUserFn.live => s.user
  | GetUserFn.const u => u

/-- Oracle for the try-block of `checkAuthStatus`: the platform reports a
signed-in user, reports signed-out, or one of the awaited calls throws. -/
inductive CheckOutcome where
  | signedIn (u : PuterUser) : CheckOutcome
  | signedOut : CheckOutcome
  | threw (msg : String) : CheckOutcome
deriving DecidableEq, Repr

/-- The `set({ isLoading: true, error: null })` prologue shared by the
session operations. -/
def beginOp (s : StoreState) : StoreState :=
  { s with isLoading := true, error := none }

/-- `checkAuthStatus` (lines 119-166): unavailable platform reports the
fixed error; otherwise the signed-in branch installs the user and the
snapshot accessor `() => user`, the signed-out branch clears both, and a
thrown error goes through `setError`.  Returns the boolean result. -/
def checkAuthStatusFn (avail : Bool) (o : CheckOutcome) (s : StoreState) :
    StoreState × Bool :=
  if avail then
    let s1 := beginOp s
    match o with
    | CheckOutcome.signedIn u =>
        ({ s1 with
            user := some u
            isAuthenticated := true
            getUserFn := GetUserFn.const (some u)
            isLoading := false }, true)
    | CheckOutcome.signedOut =>
        ({ s1 with
            user := none
            isAuthenticated := false
            getUserFn := GetUserFn.const none
            isLoading := false }, false)
    | CheckOutcome.threw msg => (setErrorStore msg s1, false)
  else (setErrorStore "Puter.js no disponible" s, false)

/-- `signIn` (lines 168-184): platform sign-in then `checkAuthStatus`;
`r = some msg` models `puter.auth.signIn()` rejecting with `msg`. -/
def signInFn (avail : Bool) (r : Option String) (o : CheckOutcome)
    (s : StoreState) : StoreState :=
  if avail then
    let s1 := beginOp s
    match r with
    | some msg => setErrorStore msg s1
    | none => (checkAuthStatusFn avail o s1).1
  else setErrorStore "Puter.js no disponible" s

/-- `signOut` (lines 186-213): on success clears the user, the flag and
installs the `() => null` accessor; a rejection goes through `setError`. -/
def signOutFn (avail : Bool) (r : Option String) (s : StoreState) :
    StoreState :=
  if avail then
    let s1 := beginOp s
    match r with
    | some msg => setErrorStore msg s1
    | none =>
        { s1 with
          user := none
          isAuthenticated := false
          getUserFn := GetUserFn.const none
          isLoading := false }
  else setErrorStore "Puter.js no disponible" s

/-- `refreshUser` (lines 215-242): on success installs the fetched user
and its snapshot accessor; a rejected `puter.auth.getUser()` goes
through `setError` (which also clears the identity). -/
def refreshUserFn (avail : Bool) (r : Except String PuterUser)
    (s : StoreState) : StoreState :=
  if avail then
    let s1 := beginOp s
    match r with
    | Except.ok u =>
        { s1 with
          user := some u
          isAuthenticated := true
          getUserFn := GetUserFn.const (some u)
          isLoading := false }
    | Except.error msg => setErrorStore msg s1
  else setErrorStore "Puter.js not available" s

/-- `clearError` (line 468): resets `error` to null, touching nothing else. -/
def clearErrorFn (s : StoreState) : StoreState :=
  { s with error := none }

/-- The store effect of `init` (or of a successful poll tick) when the
platform client is observable: set `puterReady` and run `checkAuthStatus`. -/
def initReadyFn (o : CheckOutcome) (s : StoreState) : StoreState :=
  (checkAuthStatusFn true o { s with puterReady := true }).1

/-- The store effect of the 10-second deadline callback: if the client is
still absent it reports the load-timeout error, otherwise nothing. -/
def deadlineFn (stillAbsent : Bool) (s : StoreState) : StoreState :=
  if stillAbsent then
    setErrorStore "Puter.js no se pudo cargar en 10 segundos" s
  else s

/-- The store effect shared by every capability-adapter operation
(fs write/read/upload/delete/readDir, ai chat/feedback/img2txt,
kv get/set/delete/list/flush): `setError` when the client is
unavailable, otherwise the store is untouched. -/
def adapterGuard (avail : Bool) (s : StoreState) : StoreState :=
  if avail then s else setErrorStore "Puter.js no disponible" s

/-- One store operation together with its platform oracle. -/
inductive StoreOp where
  | setErr (msg : String) : StoreOp
  | clearErr : StoreOp
  | check (avail : Bool) (o : CheckOutcome) : StoreOp
  | signIn (avail : Bool) (r : Option String) (o : CheckOutcome) : StoreOp
  | signOut (avail : Bool) (r : Option String) : StoreOp
  | refresh (avail : Bool) (r : Except String PuterUser) : StoreOp
  | initReady (o : CheckOutcome) : StoreOp
  | initPending : StoreOp
  | deadline (stillAbsent : Bool) : StoreOp
  | adapter (avail : Bool) : StoreOp

/-- The state transformation of each store operation. `initPending` is an
`init` call made while the client is absent: it only registers timers and
leaves the store state unchanged. -/
def stepOp : StoreOp → StoreState → StoreState
  | StoreOp.setErr msg, s => setErrorStore msg s
  | StoreOp.clearErr, s => clearErrorFn s
  | StoreOp.check a o, s => (checkAuthStatusFn a o s).1
  | StoreOp.signIn a r o, s => signInFn a r o s
  | StoreOp.signOut a r, s => signOutFn a r s
  | StoreOp.refresh a r, s => refreshUserFn a r s
  | StoreOp.initReady o, s => initReadyFn o s
  | StoreOp.initPending, s => s
  | StoreOp.deadline b, s => deadlineFn b s
  | StoreOp.adapter a, s => adapterGuard a s

/-- States reachable from the initial store state by store operations. -/
inductive Reachable : StoreState → Prop where
  | init : Reachable initialState
  | step (op : StoreOp) {s : StoreState} :
      Reachable s → Reachable (stepOp op s)

/-- The error invariant of the store: a recorded error forces
not-loading and an unauthenticated session with no identity. -/
def ErrorInvariant (s : StoreState) : Prop :=
  s.error ≠ none →
    s.isLoading = false ∧ s.user = none ∧ s.isAuthenticated = false

theorem errorInvariant_setError (msg : String) (s : StoreState) :
    ErrorInvariant (setErrorStore msg s) := by
  intro _
  exact ⟨rfl, rfl, rfl⟩

theorem errorInvariant_of_error_none {s : StoreState}
    (h : s.error = none) : ErrorInvariant s := by
  intro hc
  exact absurd h hc

theorem errorInvariant_step (op : StoreOp) (s : StoreState)
    (h : ErrorInvariant s) : ErrorInvariant (stepOp op s) := by
  cases op with
  | setErr msg => exact errorInvariant_setError msg s
  | clearErr => exact errorInvariant_of_error_none rfl
  | check a o =>
      cases a with
      | false => exact errorInvariant_setError _ _
      | true =>
          cases o with
          | signedIn u => exact errorInvariant_of_error_none rfl
          | signedOut => exact errorInvariant_of_error_none rfl
          | threw msg => exact errorInvariant_setError _ _
  | signIn a r o =>
      cases a with
      | false => exact errorInvariant_setError _ _
      | true =>
          cases r with
          | some msg => exact errorInvariant_setError _ _
          | none =>
              cases o with
              | signedIn u => exact errorInvariant_of_error_none rfl
              | signedOut => exact errorInvariant_of_error_none rfl
              | threw msg => exact errorInvariant_setError _ _
  | signOut a r =>
      cases a with
      | false => exact errorInvariant_setError _ _
      | true =>
          cases r with
          | some msg => exact errorInvariant_setError _ _
          | none => exact errorInvariant_of_error_none rfl
  | refresh a r =>
      cases a with
      | false => exact errorInvariant_setError _ _
      | true =>
          cases r with
          | ok u => exact errorInvariant_of_error_none rfl
          | error msg => exact errorInvariant_setError _ _
  | initReady o =>
      cases o with
      | signedIn u => exact errorInvariant_of_error_none rfl
      | signedOut => exact errorInvariant_of_error_none rfl
      | threw msg => exact errorInvariant_setError _ _
  | initPending => exact h
  | deadline b =>
      cases b with
      | false => exact h
      | true => exact errorInvariant_setError _ _
  | adapter a =>
      cases a with
      | false => exact errorInvariant_setError _ _
      | true => exact h

/-- C2: in every reachable store state, a non-null `error` implies
`isLoading = false` and an unauthenticated session with `user = null`;
since reachability closes the initial state under every store operation
(`setError`, `clearError`, `checkAuthStatus`, `signIn`, `signOut`,
`refreshUser`, `init` and its timer callbacks, and the adapter guard),
every operation preserves the invariant. -/
theorem store_error_invariant (s : StoreState) (h : Reachable s) :
    ErrorInvariant s := by
  induction h with
  | init => exact errorInvariant_of_error_none rfl
  | step op hs ih => exact errorInvariant_step op _ ih

/-- Witness for C2: the state reached by a `setError "boom"` step from the
initial state has a non-null error, and the invariant instantiates there. -/
theorem store_error_invariant_witness :
    Reachable (stepOp (StoreOp.setErr "boom") initialState) ∧
      ((stepOp (StoreOp.setErr "boom") initialState).isLoading = false ∧
        (stepOp (StoreOp.setErr "boom") initialState).user = none ∧
        (stepOp (StoreOp.setErr "boom") initialState).isAuthenticated = false) := by
  have hr : Reachable (stepOp (StoreOp.setErr "boom") initialState) :=
    Reachable.step _ Reachable.init
  exact ⟨hr, store_error_invariant _ hr (by decide)⟩

/-- C10: the freshly created store, before `init()` or any operation has
run, already reports `isLoading = true`, with no error, `puterReady`
false, and an unauthenticated session with null identity. -/
theorem initial_state_fields :
    initialState.isLoading = true ∧ initialState.error = none ∧
      initialState.puterReady = false ∧ initialState.user = none ∧
      initialState.isAuthenticated = false := by
  exact ⟨rfl, rfl, rfl, rfl, rfl⟩

/-- An authenticated state: `checkAuthStatus` observed a signed-in
platform session for user `u1`. -/
def authedState : StoreState :=
  stepOp (StoreOp.check true (CheckOutcome.signedIn ⟨"u1"⟩)) initialState

/-- The state after a `refreshUser` whose platform identity fetch
rejected with message `boom`, starting from `authedState`. -/
def refreshFailState : StoreState :=
  stepOp (StoreOp.refresh true (Except.error "boom")) authedState

/-- Counterexample for C3: from an authenticated state holding user `u1`,
a failed `refreshUser` does not leave the session as it was — it records
the error and clears the identity, demoting to unauthenticated. -/
theorem refresh_failure_demotes_counterexample :
    authedState.user = some ⟨"u1"⟩ ∧ authedState.isAuthenticated = true ∧
      refreshFailState.error = some "boom" ∧
      refreshFailState.user = none ∧
      refreshFailState.isAuthenticated = false := by
  exact ⟨rfl, rfl, rfl, rfl, rfl⟩

/-- C3 (amended): when the platform identity fetch of `refreshUser`
fails, the store records the error and, through the shared `setError`
path, also demotes the session to unauthenticated with null identity —
the same demotion `checkStatus` failure performs. -/
theorem refresh_failure_records_and_demotes (s : StoreState) (msg : String) :
    (refreshUserFn true (Except.error msg) s).error = some msg ∧
      (refreshUserFn true (Except.error msg) s).user = none ∧
      (refreshUserFn true (Except.error msg) s).isAuthenticated = false ∧
      (refreshUserFn true (Except.error msg) s).isLoading = false := by
  exact ⟨rfl, rfl, rfl, rfl⟩

/-- Counterexample for C8: `refreshFailState` is reachable, its `auth.user`
field is null, yet the exposed `getUser()` accessor still returns the
stale snapshot `u1` captured by the earlier `checkAuthStatus`. -/
theorem getUser_stale_counterexample :
    Reachable refreshFailState ∧
      getUserView refreshFailState = some ⟨"u1"⟩ ∧
      refreshFailState.user = none := by
  refine ⟨?_, rfl, rfl⟩
  exact Reachable.step _ (Reachable.step _ Reachable.init)

/-- C8 (amended): `getUser()` returns the live `auth.user` field initially
and immediately after each completed session transition (`checkAuthStatus`
signed-in/out, successful `refreshUser`, successful `signOut`), because
those transitions install a snapshot closure of the value they store; but
`setError` keeps the previous closure while nulling `auth.user`, so after
an error-driven reset the accessor can return a stale identity. -/
theorem getUser_snapshot_semantics :
    getUserView initialState = initialState.user ∧
      (∀ (s : StoreState) (u : PuterUser),
        getUserView (stepOp (StoreOp.check true (CheckOutcome.signedIn u)) s) =
          (stepOp (StoreOp.check true (CheckOutcome.signedIn u)) s).user) ∧
      (∀ s : StoreState,
        getUserView (stepOp (StoreOp.check true CheckOutcome.signedOut) s) =
          (stepOp (StoreOp.check true CheckOutcome.signedOut) s).user) ∧
      (∀ (s : StoreState) (u : PuterUser),
        getUserView (stepOp (StoreOp.refresh true (Except.ok u)) s) =
          (stepOp (StoreOp.refresh true (Except.ok u)) s).user) ∧
      (∀ s : StoreState,
        getUserView (stepOp (StoreOp.signOut true none) s) =
          (stepOp (StoreOp.signOut true none) s).user) ∧
      (∀ (s : StoreState) (msg : String),
        (setErrorStore msg s).getUserFn = s.getUserFn) := by
  refine ⟨rfl, ?_, ?_, ?_, ?_, ?_⟩
  · intro s u; rfl
  · intro s; rfl
  · intro s u; rfl
  · intro s; rfl
  · intro s msg; rfl

/-- Outcome of an adapter operation's promise as observed by the caller:
it either resolves with a value or rejects with an error message. -/
inductive PromiseResult (α : Type) where
  | resolved (v : α) : PromiseResult α
  | rejected (msg : String) : PromiseResult α
deriving DecidableEq, Repr

/-- A platform file object, as returned by `puter.fs.write`. -/
structure FileV where
  name : String
deriving DecidableEq, Repr

/-- The `write` adapter (lines 268-275): when the client is unavailable it
calls `setError` and resolves to `undefined`; otherwise it returns the
platform promise unchanged — `return puter.fs.write(path, data)` has no
try/catch, so a platform rejection propagates and the store is untouched. -/
def fsWrite (s : StoreState) (avail : Bool)
    (platform : PromiseResult (Option FileV)) :
    StoreState × PromiseResult (Option FileV) :=
  if avail then (s, platform)
  else (setErrorStore "Puter.js no disponible" s, PromiseResult.resolved none)

/-- The `setKV` adapter (lines 389-396): unavailable client resolves to
`undefined` after `setError`; otherwise `return puter.kv.set(key, value)`
forwards the platform promise, rejection included, without touching the
store. -/
def setKV (s : StoreState) (avail : Bool)
    (platform : PromiseResult Bool) :
    StoreState × PromiseResult (Option Bool) :=
  if avail then
    (s, match platform with
        | PromiseResult.resolved b => PromiseResult.resolved (some b)
        | PromiseResult.rejected msg => PromiseResult.rejected msg)
  else (setErrorStore "Puter.js no disponible" s, PromiseResult.resolved none)

/-- Counterexample for C4: a platform-level rejection of `fs.write` is not
surfaced through `lastError` and does not resolve — the adapter's promise
rejects with the platform's message and the store (here the initial state,
with `error = none`) is left unchanged. -/
theorem adapter_rejection_counterexample :
    fsWrite initialState true (PromiseResult.rejected "EIO") =
        (initialState, PromiseResult.rejected "EIO") ∧
      (fsWrite initialState true (PromiseResult.rejected "EIO")).1.error = none ∧
      setKV initialState true (PromiseResult.rejected "EIO") =
        (initialState, PromiseResult.rejected "EIO") := by
  exact ⟨rfl, rfl, rfl⟩

/-- C4 (amended): each adapter operation guards only the
client-unavailable case — there it sets `lastError` to the fixed message
and resolves to `undefined` without calling the platform; but when the
underlying platform call itself fails, the rejection propagates to the
caller unchanged and `lastError` is not updated. -/
theorem adapter_guard_and_rejection (s : StoreState) (msg : String)
    (r : PromiseResult (Option FileV)) (rb : PromiseResult Bool) :
    fsWrite s true (PromiseResult.rejected msg) =
        (s, PromiseResult.rejected msg) ∧
      setKV s true (PromiseResult.rejected msg) =
        (s, PromiseResult.rejected msg) ∧
      (fsWrite s false r).2 = PromiseResult.resolved none ∧
      (fsWrite s false r).1.error = some "Puter.js no disponible" ∧
      (setKV s false rb).2 = PromiseResult.resolved none ∧
      (setKV s false rb).1.error = some "Puter.js no disponible" := by
  exact ⟨rfl, rfl, rfl, rfl, rfl, rfl⟩

/-- The timers owned by the availability gate: live polling-interval
handles, live deadline-timeout handles paired with the interval each one
clears when it fires, and a fresh-handle counter. -/
structure GateTimers where
  intervals : List Nat
  timeouts : List (Nat × Nat)
  nextId : Nat
deriving DecidableEq, Repr

/-- No timers outstanding, as before the first `init()` call. -/
def gateTimers0 : GateTimers :=
  { intervals := [], timeouts := [], nextId := 0 }

/-- Timer effect of one `init()` call (lines 244-266): when the client is
already present no timers are created; otherwise `setInterval` registers a
fresh 100 ms polling interval and `setTimeout` a fresh 10 s deadline that,
when it fires, clears that same interval.  Nothing consults existing
handles, so every absent-client call stacks a new pair. -/
def gateInit (present : Bool) (g : GateTimers) : GateTimers :=
  if present then g
  else
    { intervals := g.intervals ++ [g.nextId]
      timeouts := g.timeouts ++ [(g.nextId + 1, g.nextId)]
      nextId := g.nextId + 2 }

/-- The polling callback of interval `i` observing the client: it clears
its own interval (`clearInterval(interval)`) and nothing else — in
particular the paired deadline timeout stays outstanding. -/
def pollObserves (i : Nat) (g : GateTimers) : GateTimers :=
  { g with intervals := g.intervals.filter (fun j => j != i) }

/-- The deadline callback of timeout `t` firing: the timeout is no longer
outstanding and it clears the interval it was paired with. -/
def deadlineFires (t : Nat) (g : GateTimers) : GateTimers :=
  { g with
    timeouts := g.timeouts.filter (fun p => p.1 != t)
    intervals :=
      match g.timeouts.find? (fun p => p.1 == t) with
      | some p => g.intervals.filter (fun j => j != p.2)
      | none => g.intervals }

/-- Counterexample for C9: two `init()` calls made while the client is
absent leave two polling intervals and two deadline timers outstanding;
and after a successful poll of the single-init state, the deadline timer
is still outstanding — it is not cleared on success. -/
theorem init_duplicate_timers_counterexample :
    (gateInit false (gateInit false gateTimers0)).intervals = [0, 2] ∧
      (gateInit false (gateInit false gateTimers0)).timeouts =
        [(1, 0), (3, 2)] ∧
      (pollObserves 0 (gateInit false gateTimers0)).intervals = [] ∧
      (pollObserves 0 (gateInit false gateTimers0)).timeouts = [(1, 0)] := by
  decide

/-- C9 (amended): `init()` is not idempotent with respect to timers — each
invocation made while the client is absent registers one fresh polling
interval and one fresh deadline timer on top of whatever is outstanding;
a successful poll clears only its own polling interval, leaving every
deadline timer outstanding until it fires; and an invocation made with the
client present creates no timers. -/
theorem gate_init_stacks_timers (g : GateTimers) :
    (gateInit false g).intervals.length = g.intervals.length + 1 ∧
      (gateInit false g).timeouts.length = g.timeouts.length + 1 ∧
      (∀ i : Nat, (pollObserves i g).timeouts = g.timeouts) ∧
      gateInit true g = g := by
  refine ⟨?_, ?_, ?_, rfl⟩
  · simp [gateInit]
  · simp [gateInit]
  · intro i; rfl

/-- JSON values, as produced by `JSON.parse`. -/
inductive Json where
  | null : Json
  | bool (b : Bool) : Json
  | num (n : Int) : Json
  | str (s : String) : Json
  | arr (xs : List Json) : Json
  | obj (kvs : List (String × Json)) : Json

/-- Whitespace characters skipped between JSON tokens. -/
def isWs (c : Char) : Bool :=
  c = ' ' || c = '\t' || c = '\n' || c = '\r'

/-- Skip leading whitespace. -/
def skipWs : List Char → List Char
  | [] => []
  | c :: cs => if isWs c then skipWs cs else c :: cs

/-- Read a string body up to the closing quote. -/
def strBody : List Char → Option (String × List Char)
  | [] => none
  | c :: cs =>
      if c = '"' then some ("", cs)
      else
        match strBody cs with
        | some (s, rest) => some (String.mk (c :: s.data), rest)
        | none => none

/-- Read a maximal run of decimal digits. -/
def digitsAux : List Char → List Nat × List Char
  | [] => ([], [])
  | c :: cs =>
      if c.isDigit then
        let p := digitsAux cs
        ((c.toNat - 48) :: p.1, p.2)
      else ([], c :: cs)

/-- Value of a digit run. -/
def natOfDigits (ds : List Nat) : Nat :=
  ds.foldl (fun a d => a * 10 + d) 0

mutual

/-- Fuel-bounded recursive-descent JSON value reader. -/
def parseVal : Nat → List Char → Option (Json × List Char)
  | 0, _ => none
  | fuel + 1, cs =>
      match skipWs cs with
      | '"' :: rest =>
          (strBody rest).map (fun p => (Json.str p.1, p.2))
      | 'n' :: 'u' :: 'l' :: 'l' :: rest => some (Json.null, rest)
      | 't' :: 'r' :: 'u' :: 'e' :: rest => some (Json.bool true, rest)
      | 'f' :: 'a' :: 'l' :: 's' :: 'e' :: rest => some (Json.bool false, rest)
      | '[' :: rest =>
          (match skipWs rest with
           | ']' :: rest2 => some (Json.arr [], rest2)
           | other => (parseItems fuel other).map
               (fun p => (Json.arr p.1, p.2)))
      | '{' :: rest =>
          (match skipWs rest with
           | '}' :: rest2 => some (Json.obj [], rest2)
           | other => (parseFields fuel other).map
               (fun p => (Json.obj p.1, p.2)))
      | '-' :: rest =>
          (match digitsAux rest with
           | ([], _) => none
           | (ds, rest2) =>
               some (Json.num (-(Int.ofNat (natOfDigits ds))), rest2))
      | c :: rest =>
          if c.isDigit then
            match digitsAux (c :: rest) with
            | (ds, rest2) => some (Json.num (Int.ofNat (natOfDigits ds)), rest2)
          else none
      | [] => none

/-- Comma-separated values up to the closing bracket. -/
def parseItems : Nat → List Char → Option (List Json × List Char)
  | 0, _ => none
  | fuel + 1, cs =>
      match parseVal fuel cs with
      | none => none
      | some (v, rest) =>
          match skipWs rest with
          | ',' :: rest2 =>
              (parseItems fuel rest2).map (fun p => (v :: p.1, p.2))
          | ']' :: rest2 => some ([v], rest2)
          | _ => none

/-- Comma-separated string-keyed fields up to the closing brace. -/
def parseFields : Nat → List Char → Option (List (String × Json) × List Char)
  | 0, _ => none
  | fuel + 1, cs =>
      match skipWs cs with
      | '"' :: rest =>
          (match strBody rest with
           | none => none
           | some (k, rest2) =>
               match skipWs rest2 with
               | ':' :: rest3 =>
                   (match parseVal fuel rest3 with
                    | none => none
                    | some (v, rest4) =>
                        match skipWs rest4 with
                        | ',' :: rest5 =>
                            (parseFields fuel rest5).map
                              (fun p => ((k, v) :: p.1, p.2))
                        | '}' :: rest5 => some ([(k, v)], rest5)
                        | _ => none)
               | _ => none)
      | _ => none

end

/-- `JSON.parse`: the whole input must be one JSON value, up to trailing
whitespace; `none` models the `SyntaxError` throw. -/
def jsonParse (s : String) : Option Json :=
  match parseVal (s.length + 1) s.data with
  | some (v, rest) => if skipWs rest = [] then some v else none
  | none => none

/-- A blob-storage item as returned by `fs.upload`; only `path` is read. -/
structure FSItem where
  path : String

/-- One element of a list-shaped inference message content; only `text`
is read (`feedback.message.content[0].text`). -/
structure ContentItem where
  text : String

/-- The shape of `feedback.message.content`: a plain string or a list. -/
inductive MsgContent where
  | str (s : String) : MsgContent
  | arr (items : List ContentItem) : MsgContent

/-- The `message` field of an inference response. -/
structure AIMessage where
  content : MsgContent

/-- An inference response as consumed by `handleAnalyze`. -/
structure AIResponse where
  message : AIMessage

/-- The Analysis Record `data` built by `handleAnalyze`; `feedback` holds
the empty string in the draft and the parsed JSON after inference. -/
structure AnalysisRecord where
  id : String
  resumePath : String
  imagePath : String
  companyName : String
  jobTitle : String
  jobDescription : String
  feedback : Json

/-- Oracle environment of one `handleAnalyze` run: the result of each
awaited external call, in stage order, plus the generated UUID.
`convertRes = none` models `convertPdfToImage(file).file` being null. -/
structure AnalyzeEnv where
  uploadFileRes : Option FSItem
  convertRes : Option Unit
  uploadImageRes : Option FSItem
  uuid : String
  feedbackRes : Option AIResponse

/-- How one `handleAnalyze` run ended: the async function returned after
the final status update, returned early from a failed stage check, or
terminated with an uncaught exception (a rejected promise). -/
inductive RunOutcome where
  | completed : RunOutcome
  | aborted : RunOutcome
  | threw (msg : String) : RunOutcome
deriving DecidableEq, Repr

/-- Observable effects of one `handleAnalyze` run: the last status text
set, how many `fs.upload` / `convertPdfToImage` / `ai.feedback` calls were
made, and every `kv.set` call as (key, record written). -/
structure Trace where
  statusText : String
  uploadCalls : Nat
  convertCalls : Nat
  aiCalls : Nat
  kvSets : List (String × AnalysisRecord)

/-- The text extracted from an inference response: the content itself when
it is a string, else the first list element's `text`; `none` models the
TypeError thrown by `content[0].text` on an empty list. -/
def extractText : MsgContent → Option String
  | MsgContent.str s => some s
  | MsgContent.arr (c :: _) => some c.text
  | MsgContent.arr [] => none

/-- The draft Analysis Record persisted before inference (feedback empty). -/
def mkDraft (uu : String) (uf ui : FSItem) (cn jt jd : String) :
    AnalysisRecord :=
  { id := uu
    resumePath := uf.path
    imagePath := ui.path
    companyName := cn
    jobTitle := jt
    jobDescription := jd
    feedback := Json.str "" }

/-- `handleAnalyze` (upload.tsx lines 21-65), stage by stage: upload the
document, convert it, upload the image, persist the draft under
`resume:` + uuid, run inference, extract and `JSON.parse` the text
(uncaught throw on failure), then persist the final record under the same
key.  Each failed truthiness check returns early with its status text. -/
def handleAnalyze (cn jt jd : String) (env : AnalyzeEnv) :
    Trace × RunOutcome :=
  let t0 : Trace :=
    { statusText := "Subiendo el CV..."
      uploadCalls := 1
      convertCalls := 0
      aiCalls := 0
      kvSets := [] }
  match env.uploadFileRes with
  | none => ({ t0 with statusText := "Error al subir el CV" }, RunOutcome.aborted)
  | some uploadedFile =>
    let t1 := { t0 with statusText := "Convirtiendo a Imagen...", convertCalls := 1 }
    match env.convertRes with
    | none =>
        ({ t1 with statusText := "Error al convertir el PDF a imagen" },
         RunOutcome.aborted)
    | some _ =>
      let t2 := { t1 with statusText := "Subiendo el CV...", uploadCalls := 2 }
      match env.uploadImageRes with
      | none =>
          ({ t2 with statusText := "Error al subir la imagen" },
           RunOutcome.aborted)
      | some uploadedImage =>
        let uuid := env.uuid
        let data := mkDraft uuid uploadedFile uploadedImage cn jt jd
        let key := "resume:" ++ uuid
        let t3 :=
          { t2 with
            statusText := "Preparando la información..."
            kvSets := t2.kvSets ++ [(key, data)] }
        let t4 := { t3 with statusText := "Analizando...", aiCalls := 1 }
        match env.feedbackRes with
        | none =>
            ({ t4 with statusText := "Error al analizar el CV" },
             RunOutcome.aborted)
        | some feedback =>
          match extractText feedback.message.content with
          | none => (t4, RunOutcome.threw "TypeError")
          | some feedbackText =>
            match jsonParse feedbackText with
            | none => (t4, RunOutcome.threw "SyntaxError")
            | some parsed =>
              let data2 := { data with feedback := parsed }
              let t5 :=
                { t4 with
                  kvSets := t4.kvSets ++ [(key, data2)]
                  statusText := "Análisis finalizado, redireccionando..." }
              (t5, RunOutcome.completed)

/-- C7: when stage 2 (pdf-to-image conversion) yields no artifact, the run
returns at once with the conversion-failure status text: the image is
never uploaded (only the stage-1 upload happened), no `kv.set` is made, no
inference call is made, and no Analysis Record is persisted. -/
theorem conversion_failure_fail_fast (cn jt jd uu : String) (uf : FSItem)
    (ui : Option FSItem) (fb : Option AIResponse) :
    handleAnalyze cn jt jd
        { uploadFileRes := some uf
          convertRes := none
          uploadImageRes := ui
          uuid := uu
          feedbackRes := fb } =
      ({ statusText := "Error al convertir el PDF a imagen"
         uploadCalls := 1
         convertCalls := 1
         aiCalls := 0
         kvSets := [] }, RunOutcome.aborted) := rfl

/-- C1 (amended): when every stage succeeds and the response text parses
as JSON, the run makes exactly two `kv.set` calls, both under the key
`resume:` + uuid; the first writes the draft with empty feedback, the
second writes feedback equal to the parsed JSON — non-empty whenever the
parsed value is not itself the empty string. -/
theorem analyze_success_two_sets (cn jt jd uu text : String)
    (uf ui : FSItem) (resp : AIResponse) (parsed : Json)
    (hx : extractText resp.message.content = some text)
    (hp : jsonParse text = some parsed) :
    handleAnalyze cn jt jd
        { uploadFileRes := some uf
          convertRes := some ()
          uploadImageRes := some ui
          uuid := uu
          feedbackRes := some resp } =
      ({ statusText := "Análisis finalizado, redireccionando..."
         uploadCalls := 2
         convertCalls := 1
         aiCalls := 1
         kvSets :=
           [("resume:" ++ uu, mkDraft uu uf ui cn jt jd),
            ("resume:" ++ uu,
              { mkDraft uu uf ui cn jt jd with feedback := parsed })] },
       RunOutcome.completed) ∧
      (parsed ≠ Json.str "" →
        ({ mkDraft uu uf ui cn jt jd with feedback := parsed }).feedback ≠
          Json.str "") := by
  constructor
  · simp [handleAnalyze, hx, hp]
  · intro hne
    simpa using hne

/-- A fully successful run: both uploads return paths, conversion
succeeds, and the inference response content is the string `true`. -/
def okEnv : AnalyzeEnv :=
  { uploadFileRes := some { path := "/cv.pdf" }
    convertRes := some ()
    uploadImageRes := some { path := "/img.png" }
    uuid := "u1"
    feedbackRes := some { message := { content := MsgContent.str "true" } } }

/-- Witness for C1 (amended): the theorem instantiated on `okEnv`, whose
response text `true` parses to the non-empty JSON value `true`. -/
theorem analyze_success_two_sets_witness :
    handleAnalyze "Acme" "Engineer" "desc" okEnv =
      ({ statusText := "Análisis finalizado, redireccionando..."
         uploadCalls := 2
         convertCalls := 1
         aiCalls := 1
         kvSets :=
           [("resume:" ++ "u1",
              mkDraft "u1" { path := "/cv.pdf" } { path := "/img.png" }
                "Acme" "Engineer" "desc"),
            ("resume:" ++ "u1",
              { mkDraft "u1" { path := "/cv.pdf" } { path := "/img.png" }
                  "Acme" "Engineer" "desc" with
                feedback := Json.bool true })] },
       RunOutcome.completed) ∧
      ({ mkDraft "u1" { path := "/cv.pdf" } { path := "/img.png" }
          "Acme" "Engineer" "desc" with
        feedback := Json.bool true }).feedback ≠ Json.str "" := by
  have h :=
    analyze_success_two_sets "Acme" "Engineer" "desc" "u1" "true"
      { path := "/cv.pdf" } { path := "/img.png" }
      { message := { content := MsgContent.str "true" } }
      (Json.bool true) rfl rfl
  exact ⟨h.1, h.2 (by intro hc; cases hc)⟩

/-- A run identical to `okEnv` except that the inference response text is
the JSON text consisting of an empty string literal. -/
def emptyStrEnv : AnalyzeEnv :=
  { uploadFileRes := some { path := "/cv.pdf" }
    convertRes := some ()
    uploadImageRes := some { path := "/img.png" }
    uuid := "u1"
    feedbackRes := some { message := { content := MsgContent.str "\"\"" } } }

/-- Counterexample for C1: on `emptyStrEnv` every stage succeeds (the text
parses as JSON) and two `kv.set` calls are made, yet the second persisted
record's feedback is the empty string — not non-empty as claimed. -/
theorem analyze_parsed_empty_feedback_counterexample :
    (handleAnalyze "Acme" "Engineer" "desc" emptyStrEnv).2 =
        RunOutcome.completed ∧
      ((handleAnalyze "Acme" "Engineer" "desc" emptyStrEnv).1.kvSets.map
          (fun p => p.2.feedback)) = [Json.str "", Json.str ""] := by
  exact ⟨rfl, rfl⟩

/-- Counterexample for C5: on a successful run both persistence calls use
the key `resume:u1`, which differs from the key `record:u1` the claim
prescribes. -/
theorem record_key_counterexample :
    ((handleAnalyze "Acme" "Engineer" "desc" okEnv).1.kvSets.map
        Prod.fst) = ["resume:u1", "resume:u1"] ∧
      ("resume:u1" : String) ≠ "record:u1" := by
  exact ⟨rfl, by decide⟩

/-- C5 (amended): every `kv.set` made by any `handleAnalyze` run uses the
string key `resume:` + uuid, where uuid is the freshly generated id. -/
theorem kv_keys_resume_prefixed (cn jt jd : String) (env : AnalyzeEnv) :
    ((handleAnalyze cn jt jd env).1.kvSets.all
        (fun p => p.1 == "resume:" ++ env.uuid)) = true := by
  obtain ⟨uf, cv, ui, uu, fb⟩ := env
  cases uf with
  | none => rfl
  | some f =>
      cases cv with
      | none => rfl
      | some c =>
          cases ui with
          | none => rfl
          | some i =>
              cases fb with
              | none => simp [handleAnalyze]
              | some resp =>
                  cases hx : extractText resp.message.content with
                  | none => simp [handleAnalyze, hx]
                  | some text =>
                      cases hp : jsonParse text with
                      | none => simp [handleAnalyze, hx, hp]
                      | some parsed => simp [handleAnalyze, hx, hp]

/-- The stage-5 response whose content is the list `[{text: "not-json"}]`. -/
def notJsonEnv : AnalyzeEnv :=
  { uploadFileRes := some { path := "/cv.pdf" }
    convertRes := some ()
    uploadImageRes := some { path := "/img.png" }
    uuid := "u1"
    feedbackRes :=
      some { message := { content := MsgContent.arr [{ text := "not-json" }] } } }

/-- C6 evaluated at the failing input: with content `[{text:"not-json"}]`
the run terminates with the uncaught `JSON.parse` exception; the only
persisted record is the draft with empty feedback (the final write never
happens) — but the status text is left at the progress message
`Analizando...`; no readable failure status is ever set. -/
theorem parse_failure_no_status_no_final_write :
    handleAnalyze "Acme" "Engineer" "desc" notJsonEnv =
      ({ statusText := "Analizando..."
         uploadCalls := 2
         convertCalls := 1
         aiCalls := 1
         kvSets :=
           [("resume:" ++ "u1",
              mkDraft "u1" { path := "/cv.pdf" } { path := "/img.png" }
                "Acme" "Engineer" "desc")] },
       RunOutcome.threw "SyntaxError") := rfl
